import Mathlib

/-!
Formal model of the swaystats status-line core (Go repository), as a shallow
embedding in Lean 4, together with theorems checking the documented behavior.

Modeling conventions:
  - Go uint64 values are Nat with arithmetic reduced modulo 2^64 (add64, sub64)
    exactly where the Go code performs uint64 addition and subtraction.
  - Go float64 values are modeled as exact rationals. All theorems that
    evaluate floating computations do so on dyadic or small rationals where
    the Go double computation is exact.
  - Go fmt.Sprintf with verb %.1f is modeled by decimal rounding with ties to
    even applied to the magnitude, with the sign printed separately, matching
    the documented behavior of strconv.FormatFloat. Go int64(f) conversion is
    truncation toward zero.
  - Reads of /proc/stat and /proc/meminfo are external inputs and are passed
    to the sampling step as an Option value (none models a read error).
-/

/-! ## Blocks (blocks/block.go) -/

/-- One i3bar display block; field defaults mirror the Go zero value. -/
structure Block where
  name : String := ""
  inst : String := ""
  fullText : String := ""
  shortText : String := ""
  color : String := ""
  background : String := ""
  separator : Bool := false
  separatorBlockWidth : Int := 0
  urgent : Bool := false
  markup : String := ""
deriving Repr, DecidableEq

def SeparatorWidth : Int := 12

/-! ## Theme (theme/theme.go) -/

structure Palette where
  warn : String
  danger : String
deriving Repr, DecidableEq

def DefaultPalette : Palette := { warn := "#d08770", danger := "#bf616a" }

/-- Active palette; the Go source never mutates it. -/
def Current : Palette := DefaultPalette

inductive Severity where
  | normal
  | warn
  | danger
deriving Repr, DecidableEq

/-- ColorFor returns the hex color and true if the severity maps to a color. -/
def ColorFor (sev : Severity) : String × Bool :=
  match sev with
  | Severity.warn => (Current.warn, true)
  | Severity.danger => (Current.danger, true)
  | Severity.normal => ("", false)

/-- Rank of a severity level, for stating monotonicity. -/
def sevRank : Severity → Nat
  | Severity.normal => 0
  | Severity.warn => 1
  | Severity.danger => 2

/-- Severity selection as written inline in the cpu and memory sampling steps:
first the danger threshold is checked inclusively, then the warn threshold. -/
def severityFor (percent warn danger : ℚ) : Severity :=
  if percent ≥ danger then Severity.danger
  else if percent ≥ warn then Severity.warn
  else Severity.normal

/-! ## Percent formatting (blocks cpu file, formatPercent) -/

/-- Go conversion int64(x) on a float: truncation toward zero. -/
def truncQ (x : ℚ) : ℤ := if 0 ≤ x then ⌊x⌋ else ⌈x⌉

/-- Round to the nearest integer with ties to even, the rounding used by Go
strconv.FormatFloat when printing with a fixed number of decimals. -/
def roundHalfEven (x : ℚ) : ℤ :=
  if x - ⌊x⌋ < 1/2 then ⌊x⌋
  else if 1/2 < x - ⌊x⌋ then ⌊x⌋ + 1
  else if ⌊x⌋ % 2 = 0 then ⌊x⌋ else ⌊x⌋ + 1

/-- One-decimal fixed formatting of a nonnegative rational, ties to even. -/
def fmt1nn (p : ℚ) : String :=
  let n := roundHalfEven (10 * p)
  toString (n / 10) ++ "." ++ toString (n % 10)

/-- Model of Go fmt.Sprintf with verb %.1f: sign, then magnitude digits. -/
def fmt1 (p : ℚ) : String :=
  if p < 0 then "-" ++ fmt1nn (-p) else fmt1nn p

/-- formatPercent from the cpu block file. Precision 0 uses
strconv.FormatInt(int64(p+0.5), 10); any other precision uses %.1f. -/
def formatPercent (p : ℚ) (precision : Int) : String :=
  if precision = 0 then toString (truncQ (p + 1/2)) ++ "%"
  else fmt1 p ++ "%"

/-! ## uint64 arithmetic -/

def U64 : Nat := 18446744073709551616

/-- Go uint64 addition. -/
def add64 (a b : Nat) : Nat := (a + b) % U64

/-- Go uint64 subtraction (wraps modulo 2^64). -/
def sub64 (a b : Nat) : Nat := (a % U64 + (U64 - b % U64)) % U64

/-! ## Configuration (config/config.go) -/

structure TimeModule where
  enabled : Bool
  format : String
deriving Repr, DecidableEq

structure CPUModule where
  enabled : Bool
  intervalSec : Int
  warnPercent : Int
  dangerPercent : Int
  precision : Int
  pfx : String
deriving Repr, DecidableEq

structure MemoryModule where
  enabled : Bool
  intervalSec : Int
  warnPercent : Int
  dangerPercent : Int
  precision : Int
  pfx : String
  format : String
deriving Repr, DecidableEq

structure Modules where
  time : TimeModule
  cpu : CPUModule
  mem : MemoryModule
deriving Repr, DecidableEq

structure Config where
  tickHz : Int
  modules : Modules
  moduleOrder : List String
deriving Repr, DecidableEq

def Defaults : Config :=
  { tickHz := 1
    modules :=
      { time := { enabled := true, format := "2006-01-02 15:04:05" }
        cpu := { enabled := true, intervalSec := 2, warnPercent := 70,
                 dangerPercent := 90, precision := 0, pfx := "CPU" }
        mem := { enabled := true, intervalSec := 5, warnPercent := 70,
                 dangerPercent := 90, precision := 0, pfx := "MEM",
                 format := "percent" } }
    moduleOrder := [] }

/-- ModuleOrder returns the declared module order (a copy in Go). -/
def Config.ModuleOrder (c : Config) : List String := c.moduleOrder

/-! ## Error block (blocks registry file, ErrorBlock) -/

/-- ErrorBlock creates a red block for failures. -/
def ErrorBlock (name msg : String) : Block :=
  let b : Block :=
    { name := name, fullText := msg, separator := false,
      separatorBlockWidth := SeparatorWidth }
  let c := ColorFor Severity.danger
  if c.2 then { b with color := c.1 } else b

/-! ## CPU provider (blocks cpu file) -/

/-- Result of one successful readProcStat call: the first eight numeric
fields of the aggregate cpu line. -/
structure ProcStat where
  user : Nat
  nice : Nat
  system : Nat
  idle : Nat
  iowait : Nat
  irq : Nat
  softirq : Nat
  steal : Nat
deriving Repr, DecidableEq

def ProcStat.idleAll (s : ProcStat) : Nat := add64 s.idle s.iowait

def ProcStat.nonIdle (s : ProcStat) : Nat :=
  add64 (add64 (add64 (add64 (add64 s.user s.nice) s.system) s.irq) s.softirq) s.steal

def ProcStat.total (s : ProcStat) : Nat := add64 s.idleAll s.nonIdle

structure CpuProvider where
  intervalNs : Int
  lastSampleNs : Int
  prevTotal : Nat
  prevIdle : Nat
  havePrev : Bool
  lastPercent : ℚ
  blk : Block
  warnThreshold : ℚ
  dangerThreshold : ℚ
  precision : Int
  pfx : String
deriving Repr, DecidableEq

/-- CpuProvider.sample. The read argument is the readProcStat result for this
call (none on read error). Returns the updated provider and the changed flag. -/
def CpuProvider.sample (c : CpuProvider) (now : Int) (read : Option ProcStat) :
    CpuProvider × Bool :=
  match read with
  | none =>
    -- On error, keep existing block; if we never had one, create error block.
    if c.blk.fullText = "" then
      ({ c with blk := ErrorBlock "cpu" "cpu err", lastSampleNs := now }, false)
    else
      ({ c with lastSampleNs := now }, false)
  | some s =>
    let idleAll := s.idleAll
    let total := s.total
    let percent : ℚ :=
      if c.havePrev then
        let deltaTotal : ℚ := (sub64 total c.prevTotal : Nat)
        let deltaIdle : ℚ := (sub64 idleAll c.prevIdle : Nat)
        if deltaTotal > 0 then (deltaTotal - deltaIdle) / deltaTotal * 100
        else c.lastPercent
      else 0
    let c1 : CpuProvider :=
      { c with havePrev := true, prevTotal := total, prevIdle := idleAll,
               lastSampleNs := now }
    let formattedPercent := formatPercent percent c1.precision
    if formattedPercent = formatPercent c1.lastPercent c1.precision ∧
        c1.blk.fullText ≠ "" then
      ({ c1 with lastPercent := percent }, false)
    else
      let c2 := { c1 with lastPercent := percent }
      let sev := severityFor percent c2.warnThreshold c2.dangerThreshold
      let co := ColorFor sev
      let full := c2.pfx ++ " " ++ formattedPercent
      let blk : Block :=
        { name := "cpu", fullText := full, separator := false,
          separatorBlockWidth := SeparatorWidth,
          color := if co.2 then co.1 else "" }
      ({ c2 with blk := blk }, true)

def CpuProvider.MaybeRefresh (c : CpuProvider) (now : Int)
    (read : Option ProcStat) : CpuProvider × Bool :=
  if now - c.lastSampleNs < c.intervalNs then (c, false)
  else c.sample now read

/-- NewCpuProvider; the constructor performs one forced initial sample, whose
read result is passed explicitly here. -/
def NewCpuProvider (cfg : Config) (now : Int) (read : Option ProcStat) :
    CpuProvider :=
  let iv := if cfg.modules.cpu.intervalSec ≤ 0 then 2 else cfg.modules.cpu.intervalSec
  let iv := if iv > 30 then 30 else iv
  let warn := if cfg.modules.cpu.warnPercent ≤ 0 then 70 else cfg.modules.cpu.warnPercent
  let danger := if cfg.modules.cpu.dangerPercent ≤ warn then warn + 10
                else cfg.modules.cpu.dangerPercent
  let danger := if danger > 100 then 100 else danger
  let precision := if cfg.modules.cpu.precision < 0 ∨ cfg.modules.cpu.precision > 1 then 0
                   else cfg.modules.cpu.precision
  let pfx := if cfg.modules.cpu.pfx = "" then "CPU" else cfg.modules.cpu.pfx
  let cp : CpuProvider :=
    { intervalNs := iv * 1000000000, lastSampleNs := 0, prevTotal := 0,
      prevIdle := 0, havePrev := false, lastPercent := 0, blk := {},
      warnThreshold := (warn : ℚ), dangerThreshold := (danger : ℚ),
      precision := precision, pfx := pfx }
  (cp.sample now read).1

/-! ## Memory provider (blocks/memory.go) -/

/-- Result of one successful readMemInfo call: total, available and used in
bytes, plus percent used. -/
structure MemInfo where
  total : Nat
  available : Nat
  used : Nat
  percent : ℚ
deriving Repr, DecidableEq

/-- humanBytes unit scaling loop: starting from n = b / 1024, keep dividing
while n is at least 1024 and fewer than four promotions happened. -/
def hbLoop (n divi expo : Nat) : Nat × Nat :=
  if h : 1024 ≤ n ∧ expo < 4 then hbLoop (n / 1024) (divi * 1024) (expo + 1)
  else (divi, expo)
termination_by n
decreasing_by
  exact Nat.div_lt_self (Nat.lt_of_lt_of_le (by norm_num) h.1) (by norm_num)

def unitChar (e : Nat) : Char := ("KMGTPE".toList).getD e ' '

/-- humanBytes converts bytes to a short human string with binary units and
up to one decimal for scaled values below 10. -/
def humanBytes (b : Nat) : String :=
  if b < 1024 then toString b ++ "B"
  else
    let de := hbLoop (b / 1024) 1024 0
    let value : ℚ := (b : ℚ) / (de.1 : ℚ)
    if value < 10 then
      fmt1 value ++ String.singleton (unitChar de.2) ++ "iB"
    else
      toString (roundHalfEven value) ++ String.singleton (unitChar de.2) ++ "iB"

structure MemoryProvider where
  intervalNs : Int
  lastSampleNs : Int
  lastPercent : ℚ
  blk : Block
  warnThreshold : ℚ
  dangerThreshold : ℚ
  precision : Int
  pfx : String
  format : String
deriving Repr, DecidableEq

def MemoryProvider.buildText (m : MemoryProvider) (total available used : Nat)
    (percentStr : String) : String :=
  if m.format = "available" then m.pfx ++ " " ++ humanBytes available ++ " free"
  else if m.format = "used" then m.pfx ++ " " ++ humanBytes used ++ " used"
  else m.pfx ++ " " ++ percentStr

/-- MemoryProvider.sample; the read argument is the readMemInfo result for
this call (none on read error, including a zero MemTotal). -/
def MemoryProvider.sample (m : MemoryProvider) (now : Int)
    (read : Option MemInfo) : MemoryProvider × Bool :=
  match read with
  | none =>
    if m.blk.fullText = "" then
      ({ m with blk := ErrorBlock "mem" "mem err", lastSampleNs := now }, false)
    else
      ({ m with lastSampleNs := now }, false)
  | some r =>
    let formattedPercent := formatPercent r.percent m.precision
    let text := m.buildText r.total r.available r.used formattedPercent
    if text = m.blk.fullText then
      ({ m with lastSampleNs := now, lastPercent := r.percent }, false)
    else
      let m1 := { m with lastSampleNs := now, lastPercent := r.percent }
      let sev := severityFor r.percent m1.warnThreshold m1.dangerThreshold
      let co := ColorFor sev
      let blk : Block :=
        { name := "mem", fullText := text, separator := false,
          separatorBlockWidth := SeparatorWidth,
          color := if co.2 then co.1 else "" }
      ({ m1 with blk := blk }, true)

def MemoryProvider.MaybeRefresh (m : MemoryProvider) (now : Int)
    (read : Option MemInfo) : MemoryProvider × Bool :=
  if now - m.lastSampleNs < m.intervalNs then (m, false)
  else m.sample now read

def NewMemoryProvider (cfg : Config) (now : Int) (read : Option MemInfo) :
    MemoryProvider :=
  let iv := if cfg.modules.mem.intervalSec ≤ 0 then 5 else cfg.modules.mem.intervalSec
  let iv := if iv > 60 then 60 else iv
  let warn := if cfg.modules.mem.warnPercent ≤ 0 then 70 else cfg.modules.mem.warnPercent
  let danger := if cfg.modules.mem.dangerPercent ≤ warn then warn + 10
                else cfg.modules.mem.dangerPercent
  let danger := if danger > 100 then 100 else danger
  let precision := if cfg.modules.mem.precision < 0 ∨ cfg.modules.mem.precision > 1 then 0
                   else cfg.modules.mem.precision
  let format := cfg.modules.mem.format.toLower
  let format := if format = "percent" ∨ format = "available" ∨ format = "used"
                then format else "percent"
  let pfx := if cfg.modules.mem.pfx = "" then "MEM" else cfg.modules.mem.pfx
  let mp : MemoryProvider :=
    { intervalNs := iv * 1000000000, lastSampleNs := 0, lastPercent := 0,
      blk := {}, warnThreshold := (warn : ℚ), dangerThreshold := (danger : ℚ),
      precision := precision, pfx := pfx, format := format }
  (mp.sample now read).1

/-! ## Provider registry and builder (blocks registry file) -/

/-- ProviderSpec describes how to enable and build a provider. The enable
predicate is optional, mirroring the nil check in the Go source. -/
structure ProviderSpec (π : Type) where
  name : String
  enable : Option (Config → Bool)
  build : Config → π

/-- Registry state: the name-to-spec map (as an association list with
overwrite-on-update semantics) and the first-registration order. -/
structure Registry (π : Type) where
  reg : List (String × ProviderSpec π)
  regOrder : List String

/-- Overwrite the value stored for a key, or add the binding if absent. -/
def updateAssoc {α : Type} (l : List (String × α)) (k : String) (v : α) :
    List (String × α) :=
  match l with
  | [] => [(k, v)]
  | (k1, v1) :: rest =>
    if k1 = k then (k, v) :: rest else (k1, v1) :: updateAssoc rest k v

/-- Register adds a provider spec if not already present; re-registration
with the same name overwrites the spec but preserves original ordering. -/
def Register {π : Type} (st : Registry π) (spec : ProviderSpec π) : Registry π :=
  let st1 := if (st.reg.lookup spec.name).isNone
             then { st with regOrder := st.regOrder ++ [spec.name] } else st
  { st1 with reg := updateAssoc st1.reg spec.name spec }

/-- Loop body of BuildProviders: skip unknown names, skip providers whose
enable predicate rejects the config, otherwise append the built provider.
The seen set kept by the Go source is write-only and does not affect the
returned list, so it is not modeled. -/
def appendIf {π : Type} (st : Registry π) (cfg : Config) (acc : List π)
    (name : String) : List π :=
  match st.reg.lookup name with
  | none => acc
  | some spec =>
    match spec.enable with
    | some en => if en cfg then acc ++ [spec.build cfg] else acc
    | none => acc ++ [spec.build cfg]

/-- BuildProviders: explicit config order if one is declared, otherwise
registration order. -/
def BuildProviders {π : Type} (st : Registry π) (cfg : Config) : List π :=
  let order := cfg.ModuleOrder
  if order.length > 0 then order.foldl (appendIf st cfg) []
  else st.regOrder.foldl (appendIf st cfg) []

/-- Claim-side description of the builder: one name contributes its built
provider exactly when it is registered and enabled. -/
def enabledBuilt {π : Type} (st : Registry π) (cfg : Config) (name : String) :
    Option π :=
  match st.reg.lookup name with
  | none => none
  | some spec =>
    match spec.enable with
    | some en => if en cfg then some (spec.build cfg) else none
    | none => some (spec.build cfg)

/-- Claim-side builder: the named, enabled, registered providers in the
order given. -/
def buildSpec {π : Type} (st : Registry π) (cfg : Config)
    (names : List String) : List π :=
  names.filterMap (enabledBuilt st cfg)

/-! ## Render loop (main.go, renderOnce) -/

/-- The two stateful providers modeled here; the render-loop theorems range
over lists of these. -/
inductive Prov where
  | cpu (c : CpuProvider)
  | mem (m : MemoryProvider)
deriving Repr, DecidableEq

/-- External read results available to providers during one tick. -/
structure Env where
  procStat : Option ProcStat
  memInfo : Option MemInfo
deriving Repr, DecidableEq

def Prov.maybeRefresh (p : Prov) (env : Env) (now : Int) : Prov × Bool :=
  match p with
  | Prov.cpu c =>
    let r := c.MaybeRefresh now env.procStat
    (Prov.cpu r.1, r.2)
  | Prov.mem m =>
    let r := m.MaybeRefresh now env.memInfo
    (Prov.mem r.1, r.2)

def Prov.current : Prov → Block
  | Prov.cpu c => c.blk
  | Prov.mem m => m.blk

structure RenderResult where
  providers : List Prov
  changed : Bool
  out : List Block
  emitted : Bool
deriving Repr, DecidableEq

/-- Loop body of renderOnce: refresh one provider, accumulate the changed
flag, and collect its current block. -/
def renderStep (env : Env) (now : Int) (acc : List Prov × Bool × List Block)
    (p : Prov) : List Prov × Bool × List Block :=
  let pr := p.maybeRefresh env now
  (acc.1 ++ [pr.1], acc.2.1 || pr.2, acc.2.2 ++ [pr.1.current])

/-- renderOnce from main.go: refresh all providers, then emit the batch
unless nothing changed and the block list is empty. Serialization of a list
of blocks cannot fail, so the encode-error branch is not modeled. -/
def renderOnce (env : Env) (ps : List Prov) (now : Int) : RenderResult :=
  let st := ps.foldl (renderStep env now) ([], false, [])
  if !st.2.1 && st.2.2.length == 0 then
    { providers := st.1, changed := st.2.1, out := st.2.2, emitted := false }
  else
    { providers := st.1, changed := st.2.1, out := st.2.2, emitted := true }

/-! ## Concrete instances used by witnesses and counterexamples -/

/-- Config whose cpu warn threshold is out of range (150). -/
def CfgBad : Config :=
  { Defaults with modules :=
    { Defaults.modules with cpu :=
      { Defaults.modules.cpu with warnPercent := 150, dangerPercent := 90 } } }

/-- Config with a one-second cpu interval. -/
def CfgIv1 : Config :=
  { Defaults with modules :=
    { Defaults.modules with cpu :=
      { Defaults.modules.cpu with intervalSec := 1 } } }

/-- A cpu provider in steady state with a rendered block. -/
def C0 : CpuProvider :=
  { intervalNs := 2000000000, lastSampleNs := 0, prevTotal := 100,
    prevIdle := 40, havePrev := true, lastPercent := 0,
    blk := { name := "cpu", fullText := "CPU 0%", separator := false,
             separatorBlockWidth := SeparatorWidth },
    warnThreshold := 70, dangerThreshold := 90, precision := 0, pfx := "CPU" }

/-- A cpu provider that has not produced any block yet. -/
def CEmpty : CpuProvider :=
  { C0 with blk := {} }

/-- A memory provider in steady state with a rendered block. -/
def M0 : MemoryProvider :=
  { intervalNs := 5000000000, lastSampleNs := 0, lastPercent := 0,
    blk := { name := "mem", fullText := "MEM 1%", separator := false,
             separatorBlockWidth := SeparatorWidth },
    warnThreshold := 70, dangerThreshold := 90, precision := 0, pfx := "MEM",
    format := "percent" }

/-- A memory provider that has not produced any block yet. -/
def MEmpty : MemoryProvider :=
  { M0 with blk := {} }

/-- Cpu provider used by the delta-formula witness: previous snapshot total
100, idle 40, last percent 37. -/
def CP3 : CpuProvider :=
  { C0 with lastPercent := 37 }

/-- Snapshot giving deltas of 60 total and 20 idle against CP3. -/
def S3 : ProcStat :=
  { user := 100, nice := 0, system := 0, idle := 55, iowait := 5,
    irq := 0, softirq := 0, steal := 0 }

/-- Snapshot whose totals equal the CP3 snapshot exactly (zero delta). -/
def S0 : ProcStat :=
  { user := 60, nice := 0, system := 0, idle := 40, iowait := 0,
    irq := 0, softirq := 0, steal := 0 }

/-- Cpu provider that has not yet recorded a first snapshot. -/
def CFresh : CpuProvider :=
  { C0 with havePrev := false }

/-- Cpu provider whose stored counters exceed the next snapshot (as after a
counter reset), for the wraparound theorem. -/
def CWrap : CpuProvider :=
  { C0 with prevTotal := 50, prevIdle := 50 }

/-- Snapshot whose idle counter went backwards relative to CWrap. -/
def SWrap : ProcStat :=
  { user := 100, nice := 0, system := 0, idle := 5, iowait := 0,
    irq := 0, softirq := 0, steal := 0 }

/-- Environment with both pseudo-file reads failing; the render-loop
counterexample only exercises the interval gate, so reads are never used. -/
def Env0 : Env := { procStat := none, memInfo := none }

def SpecCpu : ProviderSpec String :=
  { name := "cpu", enable := some (fun _ => true), build := fun _ => "C" }

def SpecMem : ProviderSpec String :=
  { name := "mem", enable := some (fun _ => true), build := fun _ => "M" }

def SpecTime : ProviderSpec String :=
  { name := "time", enable := none, build := fun _ => "T" }

/-- Replacement spec used to exercise re-registration of an existing name. -/
def SpecCpu2 : ProviderSpec String :=
  { name := "cpu", enable := some (fun _ => true), build := fun _ => "C2" }

/-- Registry with cpu, mem, time registered in that order. -/
def Reg9 : Registry String :=
  Register (Register (Register { reg := [], regOrder := [] } SpecCpu) SpecMem) SpecTime

/-- Config declaring the explicit module order mem, time. -/
def Cfg9 : Config :=
  { Defaults with moduleOrder := ["mem", "time"] }

/-! ## Helper lemmas -/

theorem floorQ_eq {x : ℚ} {z : ℤ} (h1 : (z:ℚ) ≤ x) (h2 : x < z + 1) : ⌊x⌋ = z :=
  Int.floor_eq_iff.mpr ⟨h1, h2⟩

theorem ceilQ_eq {x : ℚ} {z : ℤ} (h1 : (z:ℚ) - 1 < x) (h2 : x ≤ z) : ⌈x⌉ = z :=
  Int.ceil_eq_iff.mpr ⟨h1, h2⟩

theorem add64_eq_of_lt {a b : Nat} (h : a + b < U64) : add64 a b = a + b := by
  simp [add64, Nat.mod_eq_of_lt h]

theorem sub64_eq_of_le {a b : Nat} (hba : b ≤ a) (ha : a < U64) : sub64 a b = a - b := by
  have hb : b < U64 := Nat.lt_of_le_of_lt hba ha
  simp only [sub64, Nat.mod_eq_of_lt ha, Nat.mod_eq_of_lt hb]
  have h2 : a + (U64 - b) = U64 + (a - b) := by omega
  rw [h2, Nat.add_mod_left, Nat.mod_eq_of_lt (by omega)]

theorem sub64_lt (a b : Nat) : sub64 a b < U64 :=
  Nat.mod_lt _ (by norm_num [U64])

/-- Fields of the cpu provider that a sampling step never changes, and the
attempt timestamp that it always sets (on success and on failure alike). -/
theorem cpu_sample_const (c : CpuProvider) (now : Int) (r : Option ProcStat) :
    (c.sample now r).1.intervalNs = c.intervalNs ∧
    (c.sample now r).1.warnThreshold = c.warnThreshold ∧
    (c.sample now r).1.dangerThreshold = c.dangerThreshold ∧
    (c.sample now r).1.precision = c.precision ∧
    (c.sample now r).1.pfx = c.pfx ∧
    (c.sample now r).1.lastSampleNs = now := by
  cases r <;> simp only [CpuProvider.sample] <;> (repeat' split) <;> simp

/-- Fields of the memory provider that a sampling step never changes, and the
attempt timestamp that it always sets (on success and on failure alike). -/
theorem mem_sample_const (m : MemoryProvider) (now : Int) (r : Option MemInfo) :
    (m.sample now r).1.intervalNs = m.intervalNs ∧
    (m.sample now r).1.warnThreshold = m.warnThreshold ∧
    (m.sample now r).1.dangerThreshold = m.dangerThreshold ∧
    (m.sample now r).1.precision = m.precision ∧
    (m.sample now r).1.pfx = m.pfx ∧
    (m.sample now r).1.lastSampleNs = now := by
  cases r <;> simp only [MemoryProvider.sample] <;> (repeat' split) <;> simp

theorem formatPercent_zero_eq (p : ℚ) :
    formatPercent p 0 = toString (truncQ (p + 1/2)) ++ "%" := by
  unfold formatPercent
  rw [if_pos (show (0:ℤ) = 0 from rfl)]

theorem formatPercent_one_eq (p : ℚ) : formatPercent p 1 = fmt1 p ++ "%" := by
  unfold formatPercent
  rw [if_neg (by decide)]

/-! ## Claim C4: severity classification and color mapping -/

/-- C4: for thresholds with 0 ≤ w ≤ d ≤ 100, the severity used by the
providers is danger iff p ≥ d, warn iff w ≤ p < d, normal iff p < w, is
monotone non-decreasing in p, and the color mapping gives no color for
normal and the fixed palette colors for warn and danger. -/
theorem severity_color_policy (p w d : ℚ) (h0 : 0 ≤ w) (hwd : w ≤ d) (hd : d ≤ 100) :
    (severityFor p w d = Severity.danger ↔ d ≤ p) ∧
    (severityFor p w d = Severity.warn ↔ w ≤ p ∧ p < d) ∧
    (severityFor p w d = Severity.normal ↔ p < w) ∧
    (∀ q, p ≤ q → sevRank (severityFor p w d) ≤ sevRank (severityFor q w d)) ∧
    ColorFor Severity.normal = ("", false) ∧
    ColorFor Severity.warn = ("#d08770", true) ∧
    ColorFor Severity.danger = ("#bf616a", true) := by
  refine ⟨?_, ?_, ?_, ?_, rfl, rfl, rfl⟩
  · unfold severityFor
    split_ifs with h1 h2 <;> simp_all
  · unfold severityFor
    split_ifs with h1 h2 <;> simp_all
  · unfold severityFor
    split_ifs with h1 h2 <;> simp_all
    all_goals linarith
  · intro q hpq
    unfold severityFor
    split_ifs <;> simp_all [sevRank]
    all_goals linarith

/-- Witness for C4 at p = 75, w = 70, d = 90. -/
theorem severity_color_policy_witness :
    ((0:ℚ) ≤ 70 ∧ (70:ℚ) ≤ 90 ∧ (90:ℚ) ≤ 100) ∧
    severityFor 75 70 90 = Severity.warn := by
  refine ⟨⟨by norm_num, by norm_num, by norm_num⟩, ?_⟩
  exact (severity_color_policy 75 70 90 (by norm_num) (by norm_num)
    (by norm_num)).2.1.mpr ⟨by norm_num, by norm_num⟩

/-! ## Claim C8: percent formatting and rounding -/

/-- C8 counterexample: at p = -8/5 with precision 0 the code prints -1%
while the nearest integer with halves up (Mathlib round) is -2; at p = 1/4
with precision 1 the code prints 0.2% while half-up rounding of the tenths
digit (round of 10p) gives 3, that is 0.3%. -/
theorem formatPercent_counterexample :
    formatPercent (-8/5) 0 = "-1%" ∧ round ((-8 : ℚ)/5) = -2 ∧
    formatPercent (1/4) 1 = "0.2%" ∧ round ((10 : ℚ) * (1/4)) = 3 := by
  refine ⟨?_, ?_, ?_, ?_⟩
  · rw [formatPercent_zero_eq]
    unfold truncQ
    rw [if_neg (by norm_num)]
    rw [show ((-8:ℚ)/5 + 1/2) = -11/10 by norm_num]
    rw [ceilQ_eq (z := -1) (by norm_num) (by norm_num)]
    rfl
  · rw [round_eq]
    rw [show ((-8:ℚ)/5 + 1/2) = -11/10 by norm_num]
    exact floorQ_eq (z := -2) (by norm_num) (by norm_num)
  · rw [formatPercent_one_eq]
    unfold fmt1
    rw [if_neg (by norm_num)]
    unfold fmt1nn roundHalfEven
    rw [show ((10:ℚ) * (1/4)) = 5/2 by norm_num]
    rw [floorQ_eq (x := (5/2:ℚ)) (z := 2) (by norm_num) (by norm_num)]
    rw [if_neg (by norm_num), if_neg (by norm_num), if_pos (by decide)]
    rfl
  · rw [round_eq]
    rw [show ((10:ℚ) * (1/4) + 1/2) = 3 by norm_num]
    exact floorQ_eq (z := 3) (by norm_num) (by norm_num)

/-- C8 (amended): for nonnegative p, precision 0 formats the nearest integer
with exact halves rounding up; for negative p the code instead truncates
p + 1/2 toward zero, and precision 1 rounds ties to even, not up. -/
theorem formatPercent_half_up_nonneg (p : ℚ) (hp : 0 ≤ p) :
    formatPercent p 0 = toString (round p) ++ "%" := by
  rw [formatPercent_zero_eq]
  unfold truncQ
  rw [if_pos (by linarith), round_eq]

/-- Witness for the amended C8 at p = 3/2. -/
theorem formatPercent_half_up_nonneg_witness :
    (0:ℚ) ≤ 3/2 ∧ formatPercent (3/2) 0 = "2%" := by
  refine ⟨by norm_num, ?_⟩
  rw [formatPercent_half_up_nonneg (3/2) (by norm_num)]
  rw [round_eq, show ((3:ℚ)/2 + 1/2) = 2 by norm_num]
  rw [floorQ_eq (z := 2) (by norm_num) (by norm_num)]
  rfl

/-! ## Claim C7: effective cpu sampling interval -/

/-- C7 counterexample: a configured cpu interval of 1 second stays 1 second
(1e9 ns); it is not raised to the claimed lower clamp of 2 seconds. -/
theorem cpu_interval_counterexample :
    (NewCpuProvider CfgIv1 0 none).intervalNs = 1000000000 ∧
    (1000000000 : Int) ≠ 2000000000 := by
  constructor
  · unfold NewCpuProvider
    rw [(cpu_sample_const _ 0 none).1]
    norm_num [CfgIv1, Defaults]
  · decide

/-- C7 (amended): the effective cpu interval is the configured value capped
above at 30 seconds, with 2 seconds substituted only for non-positive
values; positive values below 2 (such as 1) pass through unchanged. -/
theorem cpu_interval_effective (cfg : Config) (now : Int) (r : Option ProcStat) :
    (NewCpuProvider cfg now r).intervalNs =
      (if cfg.modules.cpu.intervalSec ≤ 0 then 2
       else min cfg.modules.cpu.intervalSec 30) * 1000000000 := by
  unfold NewCpuProvider
  rw [(cpu_sample_const _ now r).1]
  simp only [min_def]
  split_ifs <;> omega

/-! ## Claim C2: threshold invariant after construction -/

/-- C2 counterexample: with configured cpu warn percent 150 (danger 90) the
stored thresholds are warn 150 and danger 100, so danger < warn and warn
exceeds 100. -/
theorem thresholds_counterexample :
    (NewCpuProvider CfgBad 0 none).dangerThreshold <
      (NewCpuProvider CfgBad 0 none).warnThreshold ∧
    (100:ℚ) < (NewCpuProvider CfgBad 0 none).warnThreshold := by
  have hw : (NewCpuProvider CfgBad 0 none).warnThreshold = 150 := by
    unfold NewCpuProvider
    rw [(cpu_sample_const _ 0 none).2.1]
    norm_num [CfgBad, Defaults]
  have hd : (NewCpuProvider CfgBad 0 none).dangerThreshold = 100 := by
    unfold NewCpuProvider
    rw [(cpu_sample_const _ 0 none).2.2.1]
    norm_num [CfgBad, Defaults]
  rw [hw, hd]
  norm_num

/-- C2 (amended): when the configured warn percent is at most 100, the cpu
and memory providers store thresholds with 0 ≤ warn ≤ danger ≤ 100; a
configured warn above 100 breaks the invariant (see the counterexample). -/
theorem thresholds_invariant (cfg : Config) (now : Int)
    (rc : Option ProcStat) (rm : Option MemInfo)
    (hc : cfg.modules.cpu.warnPercent ≤ 100)
    (hm : cfg.modules.mem.warnPercent ≤ 100) :
    (0 ≤ (NewCpuProvider cfg now rc).warnThreshold ∧
     (NewCpuProvider cfg now rc).warnThreshold ≤ (NewCpuProvider cfg now rc).dangerThreshold ∧
     (NewCpuProvider cfg now rc).dangerThreshold ≤ 100) ∧
    (0 ≤ (NewMemoryProvider cfg now rm).warnThreshold ∧
     (NewMemoryProvider cfg now rm).warnThreshold ≤ (NewMemoryProvider cfg now rm).dangerThreshold ∧
     (NewMemoryProvider cfg now rm).dangerThreshold ≤ 100) := by
  constructor
  · unfold NewCpuProvider
    rw [(cpu_sample_const _ now rc).2.1, (cpu_sample_const _ now rc).2.2.1]
    refine ⟨?_, ?_, ?_⟩ <;> simp only [] <;> split_ifs <;> norm_cast <;> omega
  · unfold NewMemoryProvider
    rw [(mem_sample_const _ now rm).2.1, (mem_sample_const _ now rm).2.2.1]
    refine ⟨?_, ?_, ?_⟩ <;> simp only [] <;> split_ifs <;> norm_cast <;> omega

/-- Witness for the amended C2 at the default configuration. -/
theorem thresholds_invariant_witness :
    (Defaults.modules.cpu.warnPercent ≤ 100 ∧ Defaults.modules.mem.warnPercent ≤ 100) ∧
    (0 ≤ (NewCpuProvider Defaults 0 none).warnThreshold ∧
     (NewCpuProvider Defaults 0 none).warnThreshold ≤ (NewCpuProvider Defaults 0 none).dangerThreshold ∧
     (NewCpuProvider Defaults 0 none).dangerThreshold ≤ 100) ∧
    (0 ≤ (NewMemoryProvider Defaults 0 none).warnThreshold ∧
     (NewMemoryProvider Defaults 0 none).warnThreshold ≤ (NewMemoryProvider Defaults 0 none).dangerThreshold ∧
     (NewMemoryProvider Defaults 0 none).dangerThreshold ≤ 100) :=
  ⟨⟨by decide, by decide⟩, thresholds_invariant Defaults 0 none none (by decide) (by decide)⟩

/-! ## Claim C5: interval gating of MaybeRefresh -/

/-- C5: MaybeRefresh is a pure no-op returning false while less than the
effective interval has elapsed since the last attempted sample; since both
successful and failed samples record the attempt time, a second call less
than one interval after a call that sampled (including a failed read)
returns false. -/
theorem maybeRefresh_interval_gate :
    (∀ (c : CpuProvider) (now : Int) (r : Option ProcStat),
        now - c.lastSampleNs < c.intervalNs → c.MaybeRefresh now r = (c, false)) ∧
    (∀ (m : MemoryProvider) (now : Int) (r : Option MemInfo),
        now - m.lastSampleNs < m.intervalNs → m.MaybeRefresh now r = (m, false)) ∧
    (∀ (c : CpuProvider) (t1 t2 : Int) (r1 r2 : Option ProcStat),
        c.intervalNs ≤ t1 - c.lastSampleNs → t2 - t1 < c.intervalNs →
        ((c.MaybeRefresh t1 r1).1).MaybeRefresh t2 r2 = ((c.MaybeRefresh t1 r1).1, false)) ∧
    (∀ (m : MemoryProvider) (t1 t2 : Int) (r1 r2 : Option MemInfo),
        m.intervalNs ≤ t1 - m.lastSampleNs → t2 - t1 < m.intervalNs →
        ((m.MaybeRefresh t1 r1).1).MaybeRefresh t2 r2 = ((m.MaybeRefresh t1 r1).1, false)) := by
  refine ⟨?_, ?_, ?_, ?_⟩
  · intro c now r h
    unfold CpuProvider.MaybeRefresh
    rw [if_pos h]
  · intro m now r h
    unfold MemoryProvider.MaybeRefresh
    rw [if_pos h]
  · intro c t1 t2 r1 r2 hdue hnext
    have e1 : c.MaybeRefresh t1 r1 = c.sample t1 r1 := by
      unfold CpuProvider.MaybeRefresh
      rw [if_neg (by omega)]
    rw [e1]
    have hc := cpu_sample_const c t1 r1
    unfold CpuProvider.MaybeRefresh
    rw [if_pos (by rw [hc.2.2.2.2.2, hc.1]; omega)]
  · intro m t1 t2 r1 r2 hdue hnext
    have e1 : m.MaybeRefresh t1 r1 = m.sample t1 r1 := by
      unfold MemoryProvider.MaybeRefresh
      rw [if_neg (by omega)]
    rw [e1]
    have hm := mem_sample_const m t1 r1
    unfold MemoryProvider.MaybeRefresh
    rw [if_pos (by rw [hm.2.2.2.2.2, hm.1]; omega)]

/-- Witness for C5: early second calls return false for both providers,
including after a first call that attempted a (failing) sample. -/
theorem maybeRefresh_interval_gate_witness :
    ((1:Int) - C0.lastSampleNs < C0.intervalNs ∧ C0.MaybeRefresh 1 none = (C0, false)) ∧
    ((1:Int) - M0.lastSampleNs < M0.intervalNs ∧ M0.MaybeRefresh 1 none = (M0, false)) ∧
    (C0.intervalNs ≤ (2000000000:Int) - C0.lastSampleNs ∧
      (2000000001:Int) - 2000000000 < C0.intervalNs ∧
      ((C0.MaybeRefresh 2000000000 none).1).MaybeRefresh 2000000001 none =
        ((C0.MaybeRefresh 2000000000 none).1, false)) ∧
    (M0.intervalNs ≤ (5000000000:Int) - M0.lastSampleNs ∧
      (5000000001:Int) - 5000000000 < M0.intervalNs ∧
      ((M0.MaybeRefresh 5000000000 none).1).MaybeRefresh 5000000001 none =
        ((M0.MaybeRefresh 5000000000 none).1, false)) := by
  refine ⟨⟨by decide, (maybeRefresh_interval_gate).1 C0 1 none (by decide)⟩,
          ⟨by decide, (maybeRefresh_interval_gate).2.1 M0 1 none (by decide)⟩,
          ⟨by decide, by decide,
            (maybeRefresh_interval_gate).2.2.1 C0 2000000000 2000000001 none none
              (by decide) (by decide)⟩,
          ⟨by decide, by decide,
            (maybeRefresh_interval_gate).2.2.2 M0 5000000000 5000000001 none none
              (by decide) (by decide)⟩⟩

/-! ## Claim C6: failed reads keep the last block or synthesize an error block -/

/-- C6: when the counter source cannot be read, a provider with a non-empty
block keeps it unchanged, a provider with no block yet gets the fixed error
placeholder colored with the danger palette color, and in both cases the
sampling step returns false (errors are absorbed, never propagated). -/
theorem sample_failure_fallback :
    (∀ (c : CpuProvider) (now : Int), c.blk.fullText ≠ "" →
        c.sample now none = ({ c with lastSampleNs := now }, false)) ∧
    (∀ (c : CpuProvider) (now : Int), c.blk.fullText = "" →
        c.sample now none =
          ({ c with blk := ErrorBlock "cpu" "cpu err", lastSampleNs := now }, false)) ∧
    (∀ (m : MemoryProvider) (now : Int), m.blk.fullText ≠ "" →
        m.sample now none = ({ m with lastSampleNs := now }, false)) ∧
    (∀ (m : MemoryProvider) (now : Int), m.blk.fullText = "" →
        m.sample now none =
          ({ m with blk := ErrorBlock "mem" "mem err", lastSampleNs := now }, false)) ∧
    (ErrorBlock "cpu" "cpu err").color = (ColorFor Severity.danger).1 ∧
    (ErrorBlock "mem" "mem err").color = (ColorFor Severity.danger).1 := by
  refine ⟨?_, ?_, ?_, ?_, rfl, rfl⟩ <;> intro x now h <;>
    simp [CpuProvider.sample, MemoryProvider.sample, h]

/-- Witness for C6 on concrete providers with and without a prior block. -/
theorem sample_failure_fallback_witness :
    (C0.blk.fullText ≠ "" ∧ C0.sample 7 none = ({ C0 with lastSampleNs := 7 }, false)) ∧
    (CEmpty.blk.fullText = "" ∧ CEmpty.sample 7 none =
      ({ CEmpty with blk := ErrorBlock "cpu" "cpu err", lastSampleNs := 7 }, false)) ∧
    (M0.blk.fullText ≠ "" ∧ M0.sample 7 none = ({ M0 with lastSampleNs := 7 }, false)) ∧
    (MEmpty.blk.fullText = "" ∧ MEmpty.sample 7 none =
      ({ MEmpty with blk := ErrorBlock "mem" "mem err", lastSampleNs := 7 }, false)) :=
  ⟨⟨by decide, (sample_failure_fallback).1 C0 7 (by decide)⟩,
   ⟨by decide, (sample_failure_fallback).2.1 CEmpty 7 (by decide)⟩,
   ⟨by decide, (sample_failure_fallback).2.2.1 M0 7 (by decide)⟩,
   ⟨by decide, (sample_failure_fallback).2.2.2.1 MEmpty 7 (by decide)⟩⟩

/-! ## Claim C3: cpu percent computation -/

theorem sub64_self (a : Nat) : sub64 a a = 0 := by
  have h : a % U64 < U64 := Nat.mod_lt _ (by norm_num [U64])
  simp only [sub64, U64] at h ⊢
  omega

theorem add64_lt (a b : Nat) : add64 a b < U64 :=
  Nat.mod_lt _ (by norm_num [U64])

/-- The percent recorded by a successful cpu sampling step, in all branches. -/
theorem CpuProvider.sample_lastPercent (c : CpuProvider) (now : Int) (s : ProcStat) :
    ((c.sample now (some s)).1).lastPercent =
      (if c.havePrev then
        if (0:ℚ) < ((sub64 s.total c.prevTotal : Nat) : ℚ) then
          (((sub64 s.total c.prevTotal : Nat) : ℚ) - ((sub64 s.idleAll c.prevIdle : Nat) : ℚ)) /
            ((sub64 s.total c.prevTotal : Nat) : ℚ) * 100
        else c.lastPercent
      else 0) := by
  simp only [CpuProvider.sample]
  (repeat' split) <;> simp_all

/-- A successful cpu sampling step records the fresh counters as the new
snapshot and marks a previous snapshot as available. -/
theorem CpuProvider.sample_success_fields (c : CpuProvider) (now : Int) (s : ProcStat) :
    ((c.sample now (some s)).1).prevTotal = s.total ∧
    ((c.sample now (some s)).1).prevIdle = s.idleAll ∧
    ((c.sample now (some s)).1).havePrev = true := by
  simp only [CpuProvider.sample]
  (repeat' split) <;> simp_all

/-- C3: with no previous snapshot a successful sample records percent 0
whatever the counters; with a previous snapshot and monotone counters, when
the total delta is positive the recorded percent is
(deltaTotal - deltaIdle) / deltaTotal * 100, with idleAll = idle + iowait
and total = idleAll + user + nice + system + irq + softirq + steal and
deltas against the stored snapshot; when the total delta is zero the
previous percent is reused. -/
theorem cpu_sample_percent :
    (∀ (c : CpuProvider) (now : Int) (s : ProcStat), c.havePrev = false →
        ((c.sample now (some s)).1).lastPercent = 0) ∧
    (∀ (c : CpuProvider) (now : Int) (s : ProcStat), c.havePrev = true →
        s.user + s.nice + s.system + s.idle + s.iowait + s.irq + s.softirq + s.steal < U64 →
        c.prevTotal ≤ (s.idle + s.iowait) + (s.user + s.nice + s.system + s.irq + s.softirq + s.steal) →
        c.prevIdle ≤ s.idle + s.iowait →
        0 < (s.idle + s.iowait) + (s.user + s.nice + s.system + s.irq + s.softirq + s.steal) - c.prevTotal →
        ((c.sample now (some s)).1).lastPercent =
          ((((s.idle + s.iowait) + (s.user + s.nice + s.system + s.irq + s.softirq + s.steal) - c.prevTotal : Nat) : ℚ) -
             ((s.idle + s.iowait - c.prevIdle : Nat) : ℚ)) /
            (((s.idle + s.iowait) + (s.user + s.nice + s.system + s.irq + s.softirq + s.steal) - c.prevTotal : Nat) : ℚ) * 100) ∧
    (∀ (c : CpuProvider) (now : Int) (s : ProcStat), c.havePrev = true →
        s.total = c.prevTotal →
        ((c.sample now (some s)).1).lastPercent = c.lastPercent) := by
  refine ⟨?_, ?_, ?_⟩
  · intro c now s hp
    rw [CpuProvider.sample_lastPercent]
    simp [hp]
  · intro c now s hp hsum hpt hpi hd
    have hia : s.idleAll = s.idle + s.iowait := by
      simp only [U64] at hsum
      simp only [ProcStat.idleAll, add64, U64]
      omega
    have htot : s.total = (s.idle + s.iowait) +
        (s.user + s.nice + s.system + s.irq + s.softirq + s.steal) := by
      simp only [U64] at hsum
      simp only [ProcStat.total, ProcStat.idleAll, ProcStat.nonIdle, add64, U64]
      omega
    have ht64 : s.total < U64 := by
      unfold ProcStat.total
      exact add64_lt _ _
    have hi64 : s.idleAll < U64 := by
      unfold ProcStat.idleAll
      exact add64_lt _ _
    have hpt2 : c.prevTotal ≤ s.total := by
      rw [htot]
      exact hpt
    have hpi2 : c.prevIdle ≤ s.idleAll := by
      rw [hia]
      exact hpi
    have e1 : sub64 s.total c.prevTotal =
        (s.idle + s.iowait) + (s.user + s.nice + s.system + s.irq + s.softirq + s.steal) - c.prevTotal := by
      rw [sub64_eq_of_le hpt2 ht64, htot]
    have e2 : sub64 s.idleAll c.prevIdle = s.idle + s.iowait - c.prevIdle := by
      rw [sub64_eq_of_le hpi2 hi64, hia]
    rw [CpuProvider.sample_lastPercent, if_pos hp, e1, e2]
    rw [if_pos (by exact_mod_cast hd)]
  · intro c now s hp he
    rw [CpuProvider.sample_lastPercent, if_pos hp]
    rw [show sub64 s.total c.prevTotal = 0 by rw [he, sub64_self]]
    norm_num

/-- Witness for C3: a fresh provider records 0; against the stored snapshot
(total 100, idle 40), counters with deltas 60 and 20 give 200/3 percent,
and an unchanged total reuses the stored percent 37. -/
theorem cpu_sample_percent_witness :
    (CFresh.havePrev = false ∧ ((CFresh.sample 5 (some S3)).1).lastPercent = 0) ∧
    (CP3.havePrev = true ∧ ((CP3.sample 5 (some S3)).1).lastPercent = 200/3) ∧
    (CP3.havePrev = true ∧ S0.total = CP3.prevTotal ∧
      ((CP3.sample 5 (some S0)).1).lastPercent = 37) := by
  refine ⟨⟨by decide, (cpu_sample_percent).1 CFresh 5 S3 (by decide)⟩, ⟨by decide, ?_⟩,
          ⟨by decide, by decide, ?_⟩⟩
  · have h := (cpu_sample_percent).2.1 CP3 5 S3 (by decide) (by decide) (by decide)
      (by decide) (by decide)
    rw [h]
    norm_num [S3, CP3, C0]
  · have h := (cpu_sample_percent).2.2 CP3 5 S0 (by decide) (by decide)
    rw [h]
    norm_num [CP3, C0]

/-! ## Claim C10: counter wraparound behavior -/

/-- C10: once a previous snapshot exists, deltas are unsigned 64-bit
subtractions, hence wrap modulo 2^64 and are never negative; a snapshot with
decreased counters still takes the normal success path (new snapshot stored,
formula applied) and the resulting percent is unclamped: at a concrete reset
it is negative, outside [0, 100]. -/
theorem cpu_sample_wraparound :
    (∀ a b : Nat, 0 ≤ sub64 a b ∧ sub64 a b < U64) ∧
    (∀ (c : CpuProvider) (now : Int) (s : ProcStat), c.havePrev = true →
        (s.total < c.prevTotal ∨ s.idleAll < c.prevIdle) →
        0 < sub64 s.total c.prevTotal →
        ((c.sample now (some s)).1).prevTotal = s.total ∧
        ((c.sample now (some s)).1).prevIdle = s.idleAll ∧
        ((c.sample now (some s)).1).lastPercent =
          (((sub64 s.total c.prevTotal : Nat) : ℚ) - ((sub64 s.idleAll c.prevIdle : Nat) : ℚ)) /
            ((sub64 s.total c.prevTotal : Nat) : ℚ) * 100) ∧
    (CWrap.havePrev = true ∧ SWrap.idleAll < CWrap.prevIdle ∧
      ((CWrap.sample 0 (some SWrap)).1).lastPercent < 0) := by
  refine ⟨fun a b => ⟨Nat.zero_le _, sub64_lt a b⟩, ?_, ?_⟩
  · intro c now s hp hw hd
    refine ⟨(CpuProvider.sample_success_fields c now s).1,
            (CpuProvider.sample_success_fields c now s).2.1, ?_⟩
    rw [CpuProvider.sample_lastPercent, if_pos hp, if_pos (by exact_mod_cast hd)]
  · refine ⟨rfl, by decide, ?_⟩
    rw [CpuProvider.sample_lastPercent, if_pos (show CWrap.havePrev = true from rfl)]
    rw [show sub64 SWrap.total CWrap.prevTotal = 55 from by decide]
    rw [show sub64 SWrap.idleAll CWrap.prevIdle = 18446744073709551571 from by decide]
    rw [if_pos (by norm_num)]
    push_cast
    norm_num

/-- Witness for C10 at the concrete reset snapshot. -/
theorem cpu_sample_wraparound_witness :
    (0 ≤ sub64 5 50 ∧ sub64 5 50 < U64) ∧
    (CWrap.havePrev = true ∧
     (SWrap.total < CWrap.prevTotal ∨ SWrap.idleAll < CWrap.prevIdle) ∧
     0 < sub64 SWrap.total CWrap.prevTotal ∧
     ((CWrap.sample 0 (some SWrap)).1).prevTotal = SWrap.total) :=
  ⟨(cpu_sample_wraparound).1 5 50,
   ⟨rfl, by decide, by decide,
    ((cpu_sample_wraparound).2.1 CWrap 0 SWrap rfl (by decide) (by decide)).1⟩⟩

/-! ## Claim C9: registry and builder contract -/

theorem lookup_updateAssoc {α : Type} (l : List (String × α)) (k : String) (v : α) :
    (updateAssoc l k v).lookup k = some v := by
  induction l with
  | nil => simp [updateAssoc, List.lookup]
  | cons p rest ih =>
    obtain ⟨k1, v1⟩ := p
    unfold updateAssoc
    by_cases h : k1 = k
    · simp [h, List.lookup]
    · have hb : (k == k1) = false := by
        simp [beq_eq_false_iff_ne]
        exact Ne.symm h
      rw [if_neg h]
      simp only [List.lookup, hb]
      exact ih

/-- One step of the builder loop appends the provider selected by
enabledBuilt, if any. -/
theorem appendIf_eq {π : Type} (st : Registry π) (cfg : Config) (acc : List π)
    (name : String) :
    appendIf st cfg acc name = acc ++ (enabledBuilt st cfg name).toList := by
  unfold appendIf enabledBuilt
  cases h : st.reg.lookup name with
  | none => simp [h]
  | some spec =>
    cases he : spec.enable with
    | none => simp [h, he]
    | some en => by_cases hc : en cfg <;> simp [h, he, hc]

theorem foldl_appendIf {π : Type} (st : Registry π) (cfg : Config) :
    ∀ (names : List String) (acc : List π),
      names.foldl (appendIf st cfg) acc = acc ++ buildSpec st cfg names := by
  intro names
  induction names with
  | nil =>
    intro acc
    simp [buildSpec]
  | cons n rest ih =>
    intro acc
    simp only [List.foldl_cons, appendIf_eq]
    rw [ih]
    simp only [buildSpec, List.filterMap_cons]
    cases h : enabledBuilt st cfg n <;> simp [h]

/-- C9: with a declared non-empty module order, exactly the named, enabled,
registered providers are built in the declared order (unknown names are
skipped); with no declared order, all enabled registered providers are built
in first-registration order; re-registering an existing name keeps the
registration order unchanged while storing the new spec. -/
theorem buildProviders_contract {π : Type} (st : Registry π) (cfg : Config)
    (spec : ProviderSpec π) :
    (cfg.moduleOrder ≠ [] → BuildProviders st cfg = buildSpec st cfg cfg.moduleOrder) ∧
    (cfg.moduleOrder = [] → BuildProviders st cfg = buildSpec st cfg st.regOrder) ∧
    ((st.reg.lookup spec.name).isSome →
      (Register st spec).regOrder = st.regOrder ∧
      (Register st spec).reg.lookup spec.name = some spec) := by
  refine ⟨?_, ?_, ?_⟩
  · intro h
    unfold BuildProviders Config.ModuleOrder
    rw [if_pos (by cases hcm : cfg.moduleOrder <;> simp_all)]
    rw [foldl_appendIf]
    simp
  · intro h
    unfold BuildProviders Config.ModuleOrder
    rw [h]
    simp only [List.length_nil, gt_iff_lt, lt_self_iff_false, if_false]
    rw [foldl_appendIf]
    simp
  · intro h
    cases hl : st.reg.lookup spec.name with
    | none => rw [hl] at h; simp at h
    | some v =>
      constructor
      · unfold Register
        rw [hl]
        simp
      · unfold Register
        rw [hl]
        simp [lookup_updateAssoc]

/-- Witness for C9: with registration order cpu, mem, time and declared
order mem, time, the build is exactly M then T (cpu omitted); with no
declared order the build follows registration order; re-registering cpu
keeps its position and stores the new spec. -/
theorem buildProviders_contract_witness :
    (Cfg9.moduleOrder ≠ [] ∧
      BuildProviders Reg9 Cfg9 = buildSpec Reg9 Cfg9 Cfg9.moduleOrder ∧
      buildSpec Reg9 Cfg9 Cfg9.moduleOrder = ["M", "T"]) ∧
    (Defaults.moduleOrder = [] ∧
      BuildProviders Reg9 Defaults = buildSpec Reg9 Defaults Reg9.regOrder ∧
      buildSpec Reg9 Defaults Reg9.regOrder = ["C", "M", "T"]) ∧
    ((Reg9.reg.lookup SpecCpu2.name).isSome ∧
      (Register Reg9 SpecCpu2).regOrder = Reg9.regOrder ∧
      (Register Reg9 SpecCpu2).reg.lookup SpecCpu2.name = some SpecCpu2) := by
  refine ⟨⟨by decide, (buildProviders_contract Reg9 Cfg9 SpecCpu2).1 (by decide), rfl⟩,
          ⟨rfl, (buildProviders_contract Reg9 Defaults SpecCpu2).2.1 rfl, rfl⟩,
          ⟨by decide, (buildProviders_contract Reg9 Cfg9 SpecCpu2).2.2 (by decide)⟩⟩

/-! ## Claim C1: render loop emission policy -/

theorem foldl_renderStep (env : Env) (now : Int) :
    ∀ (ps : List Prov) (acc : List Prov × Bool × List Block),
      ps.foldl (renderStep env now) acc =
        (acc.1 ++ ps.map (fun p => (p.maybeRefresh env now).1),
         acc.2.1 || ps.any (fun p => (p.maybeRefresh env now).2),
         acc.2.2 ++ ps.map (fun p => ((p.maybeRefresh env now).1).current)) := by
  intro ps
  induction ps with
  | nil =>
    intro acc
    simp
  | cons p rest ih =>
    intro acc
    simp only [List.foldl_cons, List.map_cons, List.any_cons]
    rw [ih]
    simp [renderStep, Bool.or_assoc]

/-- C1 (amended): a tick emits a line exactly when some provider reported a
change or the provider list is non-empty; with a fixed non-empty provider
list a line is emitted on every tick, whether or not anything changed and
regardless of prior emissions, and the batch always holds every provider
block in list order. -/
theorem renderOnce_emit_policy (env : Env) (ps : List Prov) (now : Int) :
    ((renderOnce env ps now).emitted = true ↔
      (ps.any (fun p => (p.maybeRefresh env now).2) = true ∨ ps ≠ [])) ∧
    (renderOnce env ps now).changed = ps.any (fun p => (p.maybeRefresh env now).2) ∧
    (renderOnce env ps now).out = ps.map (fun p => ((p.maybeRefresh env now).1).current) := by
  unfold renderOnce
  rw [foldl_renderStep]
  simp only [List.nil_append, Bool.false_or]
  split_ifs with h
  · simp only [Bool.and_eq_true, Bool.not_eq_true', beq_iff_eq] at h
    obtain ⟨h1, h2⟩ := h
    have hnil : ps = [] := by
      cases ps with
      | nil => rfl
      | cons q qs => simp at h2
    subst hnil
    simp
  · simp only [Bool.and_eq_true, Bool.not_eq_true', beq_iff_eq] at h
    refine ⟨?_, rfl, rfl⟩
    constructor
    · intro _
      by_cases ha : ps.any (fun p => (p.maybeRefresh env now).2) = true
      · exact Or.inl ha
      · right
        intro hnil
        subst hnil
        simp at h
    · intro _
      rfl

/-- C1 counterexample: with one cpu provider, the first tick emits, and the
next tick still emits even though no provider changed and a prior emission
exists, contradicting the claimed suppression. -/
theorem renderOnce_suppression_counterexample :
    (renderOnce Env0 [Prov.cpu C0] 0).emitted = true ∧
    (renderOnce Env0 ((renderOnce Env0 [Prov.cpu C0] 0).providers) 1).changed = false ∧
    (renderOnce Env0 ((renderOnce Env0 [Prov.cpu C0] 0).providers) 1).emitted = true := by
  refine ⟨by decide, by decide, by decide⟩
